import Mathlib

/-!
Shallow embedding of the queue-dispatch service of this repository
(`src/queue_service/queue_service.py`), with the external registry modelled
as explicit inputs (query results, lock responses) and explicit outputs
(the trace of registry calls the service issues).

The beat's dispatch loop (`QueueService.run`, the `for group in
Rqueue.grouped_queues` part), the startup promotion
(`QueueService.put_queues_on_pending`) and the per-attempt worker
(`QueueService.queue_beat_check`) are translated directly from the source.
`queue_service/constants.py` and `queue_service/utils.py` are not present
under `src/`; the status constants and `queue_has_beat` are modelled from
the spec, and are marked as such below.
-/

/-- Modelled from the spec: `queue_service/constants.py` is absent from src/.
Spec section 3 lists the entry statuses; the source compares against
`const.STATUS_PENDING` and passes the literal `"PENDING"` to `change_queue`. -/
def STATUS_PENDING : String := "PENDING"

/-- Modelled from the spec: `queue_service/constants.py` is absent from src/.
Status passed by `queue_beat_check` on a successful lock. -/
def STATUS_FINISHED : String := "FINISHED"

/-- Modelled from the spec: `queue_service/constants.py` is absent from src/.
Status passed by `queue_beat_check` on a denied lock. -/
def STATUS_FAILED : String := "FAILED"

/-- The payload carried by a queue entry; `queue_beat_check` reads
`next_queue.data.get("signoff")` and `next_queue.data.get("link")`. -/
structure QueueData where
  signoff : String
  link : String
deriving DecidableEq

/-- An in-memory queue entry (`Rqueue` instance): id, priority and data,
as instantiated by `instantiate_pending_queue_objects`. -/
structure Rqueue where
  id : Nat
  priority : Nat
  data : QueueData
deriving DecidableEq

/-- A lockable resource as returned by the registry; the source reads only
the field `name` (via `next_resource.get`) from it. -/
structure LockableResource where
  name : String
deriving DecidableEq

/-- The registry's response to `lock_resource`: the parsed JSON fields
`is_locked` and `detail`, and the raw response body `text`.
`queue_beat_check` reads `attempt_lock.json().get("is_locked")` and
`attempt_lock.text`. -/
structure LockResponse where
  is_locked : Bool
  detail : String
  text : String
deriving DecidableEq

/-- One group of `Rqueue.grouped_queues`: the source reads the keys
`group_type`, `group_name` and `queues`. -/
structure QueueGroup where
  group_type : String
  group_name : String
  queues : List Rqueue
deriving DecidableEq

/-- A call made by the service to the external registry. `changeQueueStatus`
covers `rlocker.change_queue` with its optional keyword arguments. -/
inductive RegistryCall where
  | lockResource (resource_name signoff link : String)
  | changeQueueStatus (queue_id : Nat) (status : String)
      (final_resource : Option String) (description : Option String)
  | abortQueue (queue_id : Nat) (abort_msg : String)
deriving DecidableEq

/-- A registry call that changes an entry's status (a `change_queue` or an
`abort_queue` call); a `lock_resource` call does not. -/
def isStatusCall : RegistryCall → Bool
  | RegistryCall.changeQueueStatus _ _ _ _ => true
  | RegistryCall.abortQueue _ _ => true
  | RegistryCall.lockResource _ _ _ => false

/-- A `lock_resource` request to the registry. -/
def isLockCall : RegistryCall → Bool
  | RegistryCall.lockResource _ _ _ => true
  | _ => false

/-- Python string slicing `s[:n]`: the first `n` characters of `s`
(the whole string when it is shorter). Used for `attempt_lock.text[:2048]`. -/
def pyslice (s : String) (n : Nat) : String := String.mk (s.data.take n)

/-- Modelled from the spec: `queue_has_beat` lives in
`queue_service/utils.py`, which is absent from src/. Spec section 4.3:
true iff the heartbeat store has a beat timestamp for the entry newer than
`now - window_seconds`; absence of any beat record is `false`, never an
error. `beats` is the external heartbeat store as `(queue_id, timestamp)`
pairs. -/
def queue_has_beat (beats : List (Nat × Nat)) (now : Nat)
    (queue_id : Nat) (in_last_x_seconds : Nat) : Bool :=
  beats.any fun b => b.1 == queue_id && decide (now - b.2 < in_last_x_seconds)

/-- The abort message built by `queue_beat_check` for an orphan queue:
three adjacent f-strings, with `QUEUE_BEAT_TIMEOUT` interpolated. -/
def orphan_abort_msg (queue_beat_timeout : Nat) : String :=
  "This queue was an orphan queue! \n"
    ++ "There was no associated client, because queue was not beating "
    ++ (" in the last " ++ toString queue_beat_timeout ++ " seconds")

/-- `QueueService.queue_beat_check(next_queue, next_resource)` as the trace
of registry calls it issues. External inputs: the heartbeat store `beats`
and current time `now` (read through `queue_has_beat` with the configured
`QUEUE_BEAT_TIMEOUT`), and the registry's response `attempt_lock` to the
`lock_resource` request. -/
def queue_beat_check (beats : List (Nat × Nat)) (now : Nat)
    (queue_beat_timeout : Nat) (attempt_lock : LockResponse)
    (next_queue : Rqueue) (next_resource : LockableResource) :
    List RegistryCall :=
  if queue_has_beat beats now next_queue.id queue_beat_timeout then
    RegistryCall.lockResource next_resource.name
        next_queue.data.signoff next_queue.data.link ::
      (if attempt_lock.is_locked then
        [RegistryCall.changeQueueStatus next_queue.id STATUS_FINISHED
          (some next_resource.name) none]
      else
        [RegistryCall.changeQueueStatus next_queue.id STATUS_FAILED
          none (some (pyslice attempt_lock.text 2048))])
  else
    [RegistryCall.abortQueue next_queue.id
      (orphan_abort_msg queue_beat_timeout)]

/-- A free-resource query issued by the beat loop:
`rlocker.get_lockable_resources(free_only=True, label_matches=...)` or
`rlocker.get_lockable_resources(free_only=True, name=...)`. -/
inductive ResourceQuery where
  | byLabel (label_matches : String)
  | byName (name : String)
deriving DecidableEq

/-- An exception raised by the dispatch loop: the explicit
`raise Exception("Group type should be either name or label!")`, or the
`IndexError` of `pop(0)` on an empty member list. -/
inductive RunError where
  | configurationError (msg : String)
  | indexError
deriving DecidableEq

/-- The `if/elif/else` selector dispatch at the top of the group loop in
`QueueService.run`: which free-resource query the group's type calls for,
`none` when the type is neither `label` nor `name` (the `raise` branch). -/
def queryOf (g : QueueGroup) : Option ResourceQuery :=
  if g.group_type = "label" then some (ResourceQuery.byLabel g.group_name)
  else if g.group_type = "name" then some (ResourceQuery.byName g.group_name)
  else none

/-- The thread-name convention of `QueueService.run`:
`thread_name = f"Thread-{next_queue.id}"`. -/
def thread_name_of (q : Rqueue) : String := "Thread-" ++ toString q.id

/-- What one iteration of the group loop in `QueueService.run` did:
the free-resource queries it issued, the `(next_queue, next_resource)`
pairs for which it started a `queue_beat_check` thread, the exception it
raised (if any), and the set of alive thread names afterwards. -/
structure GroupStep where
  queries : List ResourceQuery
  dispatches : List (Rqueue × LockableResource)
  error : Option RunError
  newAlive : List String
deriving DecidableEq

/-- One iteration of `for group in Rqueue.grouped_queues` in
`QueueService.run`. `freeRes` is the external registry's answer to each
free-resource query; `alive` is the list of alive thread names
(`threading.enumerate()`). Faithful to the source: selector dispatch
(raise on an unknown type), `if resources:` skip on an empty result,
`pop(0)` of the first member and first resource, then the
`is_thread_already_fired` check before `t.start()`. -/
def processGroup (freeRes : ResourceQuery → List LockableResource)
    (alive : List String) (g : QueueGroup) : GroupStep :=
  match queryOf g with
  | none =>
      ⟨[], [],
        some (RunError.configurationError
          "Group type should be either name or label!"), alive⟩
  | some q =>
    match freeRes q, g.queues with
    | [], _ => ⟨[q], [], none, alive⟩
    | _ :: _, [] => ⟨[q], [], some RunError.indexError, alive⟩
    | r :: _, nq :: _ =>
      if thread_name_of nq ∈ alive then ⟨[q], [], none, alive⟩
      else ⟨[q], [(nq, r)], none, thread_name_of nq :: alive⟩

/-- The accumulated outcome of the whole group loop of one beat. -/
structure BeatResult where
  queries : List ResourceQuery
  dispatches : List (Rqueue × LockableResource)
  error : Option RunError
  finalAlive : List String
deriving DecidableEq

/-- The group loop of `QueueService.run` over the grouped queues, in order.
A raised exception stops the loop (Python exception propagation); a started
thread joins the alive set seen by later iterations. -/
def run_groups (freeRes : ResourceQuery → List LockableResource) :
    List String → List QueueGroup → BeatResult
  | alive, [] => ⟨[], [], none, alive⟩
  | alive, g :: rest =>
    match processGroup freeRes alive g with
    | ⟨qs, ds, some e, na⟩ => ⟨qs, ds, some e, na⟩
    | ⟨qs, ds, none, na⟩ =>
      let r := run_groups freeRes na rest
      ⟨qs ++ r.queries, ds ++ r.dispatches, r.error, r.finalAlive⟩

/-- A queue record as fetched by `rlocker.get_queues(status=...)`; the
promotion loop reads only `queue.get("id")`. -/
structure QueueJson where
  id : Nat
deriving DecidableEq

/-- How `QueueService.put_queues_on_pending` ends: either the process exits
(after printing the offending queue id) with the given exit code, or the
loop completes and the service keeps running. -/
inductive PromoteOutcome where
  | exited (logged_queue_id : Nat) (exit_code : Nat)
  | completed
deriving DecidableEq

/-- `QueueService.put_queues_on_pending`: for each INITIALIZING queue,
request a change to `PENDING` and verify the response's `status` field; on
the first unconfirmed response, print the queue id and call `sys.exit()`.
`sys.exit()` takes no argument in the source, which is `SystemExit(None)`,
i.e. process exit status `0`. `change_queue_response_status` gives the
registry's response status for each queue id. -/
def put_queues_on_pending (initializing_queues : List QueueJson)
    (change_queue_response_status : Nat → String) : PromoteOutcome :=
  match initializing_queues with
  | [] => PromoteOutcome.completed
  | q :: rest =>
    if change_queue_response_status q.id = STATUS_PENDING then
      put_queues_on_pending rest change_queue_response_status
    else
      PromoteOutcome.exited q.id 0

/-! ## Helper lemmas -/

/-- Every run of `queue_beat_check` issues exactly one status-changing
registry call, whichever outcome branch it takes. -/
theorem queue_beat_check_one_status_call (beats : List (Nat × Nat))
    (now bt : Nat) (lr : LockResponse) (q : Rqueue) (r : LockableResource) :
    ((queue_beat_check beats now bt lr q r).filter isStatusCall).length = 1 := by
  unfold queue_beat_check
  by_cases hb : queue_has_beat beats now q.id bt = true
  · by_cases hl : lr.is_locked = true <;>
      simp [hb, hl, isStatusCall, List.filter]
  · simp [hb, isStatusCall, List.filter]

/-- The word "orphan" occurs in the abort message for every configured
timeout value. -/
theorem orphan_in_abort_msg (bt : Nat) :
    ∃ pre post, orphan_abort_msg bt = pre ++ ("orphan" ++ post) := by
  refine ⟨"This queue was an ",
    " queue! \n" ++ "There was no associated client, because queue was not beating "
      ++ (" in the last " ++ toString bt ++ " seconds"), ?_⟩
  unfold orphan_abort_msg
  simp only [← String.append_assoc]
  congr 2

/-- A group whose selector type is neither `label` nor `name` makes the
iteration raise at once: no query, no dispatch, alive set unchanged. -/
theorem processGroup_of_queryOf_none
    (freeRes : ResourceQuery → List LockableResource)
    (alive : List String) (g : QueueGroup) (hg : queryOf g = none) :
    processGroup freeRes alive g =
      ⟨[], [],
        some (RunError.configurationError
          "Group type should be either name or label!"), alive⟩ := by
  simp [processGroup, hg]

/-- If a group iteration started a dispatch thread, the group had a first
member, its thread name was not alive before, and it is alive afterwards. -/
theorem processGroup_started (freeRes : ResourceQuery → List LockableResource)
    (alive : List String) (g : QueueGroup)
    (h : (processGroup freeRes alive g).dispatches ≠ []) :
    ∃ nq tl, g.queues = nq :: tl ∧
      thread_name_of nq ∉ alive ∧
      (processGroup freeRes alive g).newAlive = thread_name_of nq :: alive := by
  cases hq : queryOf g with
  | none => rw [processGroup_of_queryOf_none freeRes alive g hq] at h; simp at h
  | some qu =>
    cases hr : freeRes qu with
    | nil =>
      have hstep : processGroup freeRes alive g = ⟨[qu], [], none, alive⟩ := by
        simp [processGroup, hq, hr]
      rw [hstep] at h; simp at h
    | cons r rs =>
      cases hqs : g.queues with
      | nil =>
        have hstep : processGroup freeRes alive g =
            ⟨[qu], [], some RunError.indexError, alive⟩ := by
          simp [processGroup, hq, hr, hqs]
        rw [hstep] at h; simp at h
      | cons nq tl =>
        by_cases hmem : thread_name_of nq ∈ alive
        · have hstep : processGroup freeRes alive g = ⟨[qu], [], none, alive⟩ := by
            simp [processGroup, hq, hr, hqs, hmem]
          rw [hstep] at h; simp at h
        · refine ⟨nq, tl, rfl, hmem, ?_⟩
          have hstep : processGroup freeRes alive g =
              ⟨[qu], [(nq, r)], none, thread_name_of nq :: alive⟩ := by
            simp [processGroup, hq, hr, hqs, hmem]
          rw [hstep]

/-- Splitting the group loop: when the first part raises no exception, the
loop over `xs ++ ys` is the loop over `xs` followed by the loop over `ys`
started from the alive set `xs` left behind. -/
theorem run_groups_append (freeRes : ResourceQuery → List LockableResource)
    (alive : List String) (xs ys : List QueueGroup)
    (h : (run_groups freeRes alive xs).error = none) :
    run_groups freeRes alive (xs ++ ys) =
      ⟨(run_groups freeRes alive xs).queries ++
         (run_groups freeRes (run_groups freeRes alive xs).finalAlive ys).queries,
       (run_groups freeRes alive xs).dispatches ++
         (run_groups freeRes (run_groups freeRes alive xs).finalAlive ys).dispatches,
       (run_groups freeRes (run_groups freeRes alive xs).finalAlive ys).error,
       (run_groups freeRes (run_groups freeRes alive xs).finalAlive ys).finalAlive⟩ := by
  induction xs generalizing alive with
  | nil => simp [run_groups]
  | cons g xs ih =>
    cases hpg : processGroup freeRes alive g with
    | mk qs ds err na =>
      cases err with
      | some e => simp [run_groups, hpg] at h
      | none =>
        have h' : (run_groups freeRes na xs).error = none := by
          simpa [run_groups, hpg] using h
        simp [run_groups, hpg, ih na h', List.append_assoc]

/-! ## Claims about `queue_beat_check` -/

/-- C1: For every matched (entry, resource) pair whose heartbeat check
passes and for which the registry's `lock_resource` response has
`is_locked` true, the dispatcher sets the entry's status to FINISHED with
`final_resource` equal to the name of the resource that was handed to it,
and makes no other status-changing call for that attempt. -/
theorem C1_lock_success_finished (beats : List (Nat × Nat)) (now bt : Nat)
    (lr : LockResponse) (q : Rqueue) (r : LockableResource)
    (hbeat : queue_has_beat beats now q.id bt = true)
    (hlock : lr.is_locked = true) :
    queue_beat_check beats now bt lr q r =
      [RegistryCall.lockResource r.name q.data.signoff q.data.link,
       RegistryCall.changeQueueStatus q.id STATUS_FINISHED (some r.name) none] ∧
    (queue_beat_check beats now bt lr q r).filter isStatusCall =
      [RegistryCall.changeQueueStatus q.id STATUS_FINISHED (some r.name) none] := by
  constructor
  · simp [queue_beat_check, hbeat, hlock]
  · simp [queue_beat_check, hbeat, hlock, isStatusCall, List.filter]

/-- Witness for C1: a concrete fresh-heartbeat, lock-granted scenario. -/
theorem C1_lock_success_finished_witness :
    queue_has_beat [(1, 100)] 100 1 30 = true ∧
    (LockResponse.mk true "" "ok").is_locked = true ∧
    (queue_beat_check [(1, 100)] 100 30 (LockResponse.mk true "" "ok")
        (Rqueue.mk 1 0 (QueueData.mk "sig" "url")) (LockableResource.mk "pool-A") =
      [RegistryCall.lockResource "pool-A" "sig" "url",
       RegistryCall.changeQueueStatus 1 STATUS_FINISHED (some "pool-A") none] ∧
     (queue_beat_check [(1, 100)] 100 30 (LockResponse.mk true "" "ok")
        (Rqueue.mk 1 0 (QueueData.mk "sig" "url"))
        (LockableResource.mk "pool-A")).filter isStatusCall =
      [RegistryCall.changeQueueStatus 1 STATUS_FINISHED (some "pool-A") none]) :=
  ⟨by decide, rfl,
   C1_lock_success_finished [(1, 100)] 100 30 (LockResponse.mk true "" "ok")
     (Rqueue.mk 1 0 (QueueData.mk "sig" "url")) (LockableResource.mk "pool-A")
     (by decide) rfl⟩

/-- C2: For every dispatched entry whose heartbeat check fails, the
dispatcher aborts the entry with a reason string containing "orphan" and
issues no `lock_resource` request to the registry for that attempt. -/
theorem C2_orphan_aborted (beats : List (Nat × Nat)) (now bt : Nat)
    (lr : LockResponse) (q : Rqueue) (r : LockableResource)
    (hbeat : queue_has_beat beats now q.id bt = false) :
    queue_beat_check beats now bt lr q r =
      [RegistryCall.abortQueue q.id (orphan_abort_msg bt)] ∧
    (∃ pre post, orphan_abort_msg bt = pre ++ ("orphan" ++ post)) ∧
    ∀ c ∈ queue_beat_check beats now bt lr q r, isLockCall c = false := by
  have htrace : queue_beat_check beats now bt lr q r =
      [RegistryCall.abortQueue q.id (orphan_abort_msg bt)] := by
    simp [queue_beat_check, hbeat]
  refine ⟨htrace, orphan_in_abort_msg bt, ?_⟩
  rw [htrace]
  simp [isLockCall]

/-- Witness for C2: a concrete orphan scenario (empty heartbeat store,
window of 30 seconds). -/
theorem C2_orphan_aborted_witness :
    queue_has_beat [] 100 1 30 = false ∧
    (queue_beat_check [] 100 30 (LockResponse.mk true "" "ok")
        (Rqueue.mk 1 0 (QueueData.mk "sig" "url")) (LockableResource.mk "pool-A") =
      [RegistryCall.abortQueue 1 (orphan_abort_msg 30)] ∧
     (∃ pre post, orphan_abort_msg 30 = pre ++ ("orphan" ++ post)) ∧
     ∀ c ∈ queue_beat_check [] 100 30 (LockResponse.mk true "" "ok")
        (Rqueue.mk 1 0 (QueueData.mk "sig" "url")) (LockableResource.mk "pool-A"),
       isLockCall c = false) :=
  ⟨rfl,
   C2_orphan_aborted [] 100 30 (LockResponse.mk true "" "ok")
     (Rqueue.mk 1 0 (QueueData.mk "sig" "url")) (LockableResource.mk "pool-A") rfl⟩

/-- C4 counterexample: with heartbeat fresh and the registry denying the
lock with detail "busy" (raw body the corresponding JSON text), the
description stored on the FAILED entry is the raw response body
`attempt_lock.text`, not the denial detail "busy" — refuting the claim that
the description equals the denial detail. -/
theorem C4_denial_detail_counterexample :
    queue_beat_check [(1, 100)] 100 30
        (LockResponse.mk false "busy"
          "\x7b\"is_locked\": false, \"detail\": \"busy\"\x7d")
        (Rqueue.mk 1 0 (QueueData.mk "sig" "url")) (LockableResource.mk "pool-A") =
      [RegistryCall.lockResource "pool-A" "sig" "url",
       RegistryCall.changeQueueStatus 1 STATUS_FAILED none
         (some "\x7b\"is_locked\": false, \"detail\": \"busy\"\x7d")] ∧
    ("\x7b\"is_locked\": false, \"detail\": \"busy\"\x7d" : String) ≠ "busy" := by
  constructor
  · decide
  · decide

/-- C4 (amended): For every matched pair whose heartbeat check passes and
for which the registry's `lock_resource` response has `is_locked` false,
the dispatcher sets the entry's status to FAILED with a description equal
to the registry's raw response body truncated to 2048 characters
(`attempt_lock.text[:2048]`), not the parsed denial detail field, and makes
no other status-changing call for that attempt. -/
theorem C4_lock_denied_failed (beats : List (Nat × Nat)) (now bt : Nat)
    (lr : LockResponse) (q : Rqueue) (r : LockableResource)
    (hbeat : queue_has_beat beats now q.id bt = true)
    (hlock : lr.is_locked = false) :
    queue_beat_check beats now bt lr q r =
      [RegistryCall.lockResource r.name q.data.signoff q.data.link,
       RegistryCall.changeQueueStatus q.id STATUS_FAILED
         none (some (pyslice lr.text 2048))] ∧
    (queue_beat_check beats now bt lr q r).filter isStatusCall =
      [RegistryCall.changeQueueStatus q.id STATUS_FAILED
        none (some (pyslice lr.text 2048))] := by
  constructor
  · simp [queue_beat_check, hbeat, hlock]
  · simp [queue_beat_check, hbeat, hlock, isStatusCall, List.filter]

/-- Witness for C4 (amended): the concrete lock-denied scenario. -/
theorem C4_lock_denied_failed_witness :
    queue_has_beat [(1, 100)] 100 1 30 = true ∧
    (LockResponse.mk false "busy"
      "\x7b\"is_locked\": false, \"detail\": \"busy\"\x7d").is_locked = false ∧
    (queue_beat_check [(1, 100)] 100 30
        (LockResponse.mk false "busy"
          "\x7b\"is_locked\": false, \"detail\": \"busy\"\x7d")
        (Rqueue.mk 1 0 (QueueData.mk "sig" "url")) (LockableResource.mk "pool-A") =
      [RegistryCall.lockResource "pool-A" "sig" "url",
       RegistryCall.changeQueueStatus 1 STATUS_FAILED none
         (some (pyslice "\x7b\"is_locked\": false, \"detail\": \"busy\"\x7d" 2048))] ∧
     (queue_beat_check [(1, 100)] 100 30
        (LockResponse.mk false "busy"
          "\x7b\"is_locked\": false, \"detail\": \"busy\"\x7d")
        (Rqueue.mk 1 0 (QueueData.mk "sig" "url"))
        (LockableResource.mk "pool-A")).filter isStatusCall =
      [RegistryCall.changeQueueStatus 1 STATUS_FAILED none
        (some (pyslice "\x7b\"is_locked\": false, \"detail\": \"busy\"\x7d" 2048))]) :=
  ⟨by decide, rfl,
   C4_lock_denied_failed [(1, 100)] 100 30
     (LockResponse.mk false "busy"
       "\x7b\"is_locked\": false, \"detail\": \"busy\"\x7d")
     (Rqueue.mk 1 0 (QueueData.mk "sig" "url")) (LockableResource.mk "pool-A")
     (by decide) rfl⟩

/-- C8: For every lock-denied outcome, the description stored on the FAILED
entry is `attempt_lock.text[:2048]`: text longer than 2048 characters is
truncated to exactly 2048 characters (character for character its prefix),
and text of 2048 characters or fewer is stored unmodified. -/
theorem C8_description_truncation (beats : List (Nat × Nat)) (now bt : Nat)
    (lr : LockResponse) (q : Rqueue) (r : LockableResource)
    (hbeat : queue_has_beat beats now q.id bt = true)
    (hlock : lr.is_locked = false) :
    (queue_beat_check beats now bt lr q r).filter isStatusCall =
      [RegistryCall.changeQueueStatus q.id STATUS_FAILED
        none (some (pyslice lr.text 2048))] ∧
    (2048 < lr.text.length →
      (pyslice lr.text 2048).length = 2048 ∧
      (pyslice lr.text 2048).data = lr.text.data.take 2048) ∧
    (lr.text.length ≤ 2048 → pyslice lr.text 2048 = lr.text) := by
  refine ⟨?_, ?_, ?_⟩
  · simp [queue_beat_check, hbeat, hlock, isStatusCall, List.filter]
  · intro hlong
    have h2 : 2048 < lr.text.data.length := hlong
    constructor
    · show (lr.text.data.take 2048).length = 2048
      rw [List.length_take]
      omega
    · rfl
  · intro hshort
    have h2 : lr.text.data.length ≤ 2048 := hshort
    unfold pyslice
    rw [List.take_of_length_le h2]

/-- Witness for C8: the concrete lock-denied scenario; the short response
body is stored unmodified. -/
theorem C8_description_truncation_witness :
    queue_has_beat [(1, 100)] 100 1 30 = true ∧
    (LockResponse.mk false "busy" "busy").is_locked = false ∧
    ((queue_beat_check [(1, 100)] 100 30 (LockResponse.mk false "busy" "busy")
        (Rqueue.mk 1 0 (QueueData.mk "sig" "url"))
        (LockableResource.mk "pool-A")).filter isStatusCall =
      [RegistryCall.changeQueueStatus 1 STATUS_FAILED
        none (some (pyslice "busy" 2048))] ∧
     (2048 < ("busy" : String).length →
       (pyslice "busy" 2048).length = 2048 ∧
       (pyslice "busy" 2048).data = ("busy" : String).data.take 2048) ∧
     (("busy" : String).length ≤ 2048 → pyslice "busy" 2048 = "busy")) :=
  ⟨by decide, rfl,
   C8_description_truncation [(1, 100)] 100 30 (LockResponse.mk false "busy" "busy")
     (Rqueue.mk 1 0 (QueueData.mk "sig" "url")) (LockableResource.mk "pool-A")
     (by decide) rfl⟩

/-! ## Claim about `put_queues_on_pending` -/

/-- C3 at the failing input: one INITIALIZING queue (id 7) whose
`change_queue` response status is "FAILED" (not PENDING). The service logs
queue id 7 and exits — with exit status 0, because the source calls
`sys.exit()` with no argument (`SystemExit(None)`), while the claim and the
spec require a nonzero exit status. -/
theorem C3_promotion_failure_exits_with_code_zero :
    put_queues_on_pending [QueueJson.mk 7] (fun _ => "FAILED") =
      PromoteOutcome.exited 7 0 := by
  decide

/-! ## Claims about the dispatch loop of `QueueService.run` -/

/-- C5: For every group processed in a beat, the matcher produces at most
one (entry, resource) pair: exactly the first member of the group paired
with the first free resource returned by the registry, regardless of how
many free resources or group members exist. -/
theorem C5_single_pair_per_group
    (freeRes : ResourceQuery → List LockableResource)
    (alive : List String) (g : QueueGroup) :
    (processGroup freeRes alive g).dispatches.length ≤ 1 ∧
    ∀ p ∈ (processGroup freeRes alive g).dispatches,
      g.queues.head? = some p.1 ∧
      ∃ qu, queryOf g = some qu ∧ (freeRes qu).head? = some p.2 := by
  cases hq : queryOf g with
  | none =>
    rw [processGroup_of_queryOf_none freeRes alive g hq]
    simp
  | some qu =>
    cases hr : freeRes qu with
    | nil =>
      have hstep : processGroup freeRes alive g = ⟨[qu], [], none, alive⟩ := by
        simp [processGroup, hq, hr]
      rw [hstep]; simp
    | cons r rs =>
      cases hqs : g.queues with
      | nil =>
        have hstep : processGroup freeRes alive g =
            ⟨[qu], [], some RunError.indexError, alive⟩ := by
          simp [processGroup, hq, hr, hqs]
        rw [hstep]; simp
      | cons nq tl =>
        by_cases hmem : thread_name_of nq ∈ alive
        · have hstep : processGroup freeRes alive g = ⟨[qu], [], none, alive⟩ := by
            simp [processGroup, hq, hr, hqs, hmem]
          rw [hstep]; simp
        · have hstep : processGroup freeRes alive g =
              ⟨[qu], [(nq, r)], none, thread_name_of nq :: alive⟩ := by
            simp [processGroup, hq, hr, hqs, hmem]
          rw [hstep]
          refine ⟨by simp, ?_⟩
          intro p hp
          simp only [List.mem_singleton] at hp
          subst hp
          exact ⟨rfl, qu, rfl, by rw [hr]; rfl⟩

/-- Witness for C5: a concrete group with two members and two free
resources; only the first of each is ever paired. -/
theorem C5_single_pair_per_group_witness :
    (processGroup
        (fun _ => [LockableResource.mk "pool-A", LockableResource.mk "pool-B"]) []
        (QueueGroup.mk "name" "pool-A"
          [Rqueue.mk 1 0 (QueueData.mk "s" "l"),
           Rqueue.mk 2 0 (QueueData.mk "s" "l")])).dispatches.length ≤ 1 ∧
    ∀ p ∈ (processGroup
        (fun _ => [LockableResource.mk "pool-A", LockableResource.mk "pool-B"]) []
        (QueueGroup.mk "name" "pool-A"
          [Rqueue.mk 1 0 (QueueData.mk "s" "l"),
           Rqueue.mk 2 0 (QueueData.mk "s" "l")])).dispatches,
      (QueueGroup.mk "name" "pool-A"
          [Rqueue.mk 1 0 (QueueData.mk "s" "l"),
           Rqueue.mk 2 0 (QueueData.mk "s" "l")]).queues.head? = some p.1 ∧
      ∃ qu, queryOf (QueueGroup.mk "name" "pool-A"
          [Rqueue.mk 1 0 (QueueData.mk "s" "l"),
           Rqueue.mk 2 0 (QueueData.mk "s" "l")]) = some qu ∧
        ((fun _ => [LockableResource.mk "pool-A", LockableResource.mk "pool-B"])
            qu : List LockableResource).head? = some p.2 :=
  C5_single_pair_per_group
    (fun _ => [LockableResource.mk "pool-A", LockableResource.mk "pool-B"]) []
    (QueueGroup.mk "name" "pool-A"
      [Rqueue.mk 1 0 (QueueData.mk "s" "l"),
       Rqueue.mk 2 0 (QueueData.mk "s" "l")])

/-- C6 counterexample: a beat whose grouped queues hold a well-formed
"name" group (with a free resource and a fresh entry) followed by a group
with selector type "region". The loop raises the configuration error, but
only after dispatching for the first group, so the beat does not raise
"before any dispatch occurs". -/
theorem C6_config_error_counterexample :
    (run_groups (fun _ => [LockableResource.mk "pool-A"]) []
        [QueueGroup.mk "name" "pool-A" [Rqueue.mk 1 0 (QueueData.mk "s" "l")],
         QueueGroup.mk "region" "eu" [Rqueue.mk 2 0 (QueueData.mk "s" "l")]]).error =
      some (RunError.configurationError
        "Group type should be either name or label!") ∧
    (run_groups (fun _ => [LockableResource.mk "pool-A"]) []
        [QueueGroup.mk "name" "pool-A" [Rqueue.mk 1 0 (QueueData.mk "s" "l")],
         QueueGroup.mk "region" "eu" [Rqueue.mk 2 0 (QueueData.mk "s" "l")]]).dispatches =
      [(Rqueue.mk 1 0 (QueueData.mk "s" "l"), LockableResource.mk "pool-A")] := by
  decide

/-- C6 (amended): If any group has a selector type that is neither "name"
nor "label", the beat raises the configuration error when the loop reaches
that group: no registry query for free resources is made for that group
(nor any later one) and no dispatch occurs for that group (nor any later
one), while dispatches already made for earlier groups of the same beat
stand. -/
theorem C6_config_error_stops_beat
    (freeRes : ResourceQuery → List LockableResource)
    (alive : List String) (pre : List QueueGroup) (g : QueueGroup)
    (post : List QueueGroup)
    (hpre : (run_groups freeRes alive pre).error = none)
    (hg : queryOf g = none) :
    (run_groups freeRes alive (pre ++ g :: post)).error =
      some (RunError.configurationError
        "Group type should be either name or label!") ∧
    (run_groups freeRes alive (pre ++ g :: post)).queries =
      (run_groups freeRes alive pre).queries ∧
    (run_groups freeRes alive (pre ++ g :: post)).dispatches =
      (run_groups freeRes alive pre).dispatches := by
  rw [run_groups_append freeRes alive pre (g :: post) hpre]
  have hpg := processGroup_of_queryOf_none freeRes
    (run_groups freeRes alive pre).finalAlive g hg
  have hbad : run_groups freeRes (run_groups freeRes alive pre).finalAlive
      (g :: post) =
      ⟨[], [],
        some (RunError.configurationError
          "Group type should be either name or label!"),
        (run_groups freeRes alive pre).finalAlive⟩ := by
    simp [run_groups, hpg]
  rw [hbad]
  simp

/-- Witness for C6 (amended): one good "name" group before a "region"
group; the error is raised, the earlier dispatch stands, and no further
query is made. -/
theorem C6_config_error_stops_beat_witness :
    (run_groups (fun _ => [LockableResource.mk "pool-A"]) []
        [QueueGroup.mk "name" "pool-A" [Rqueue.mk 1 0 (QueueData.mk "s" "l")]]).error =
      none ∧
    queryOf (QueueGroup.mk "region" "eu" [Rqueue.mk 2 0 (QueueData.mk "s" "l")]) =
      none ∧
    ((run_groups (fun _ => [LockableResource.mk "pool-A"]) []
        ([QueueGroup.mk "name" "pool-A" [Rqueue.mk 1 0 (QueueData.mk "s" "l")]] ++
          QueueGroup.mk "region" "eu" [Rqueue.mk 2 0 (QueueData.mk "s" "l")] :: [])).error =
      some (RunError.configurationError
        "Group type should be either name or label!") ∧
     (run_groups (fun _ => [LockableResource.mk "pool-A"]) []
        ([QueueGroup.mk "name" "pool-A" [Rqueue.mk 1 0 (QueueData.mk "s" "l")]] ++
          QueueGroup.mk "region" "eu" [Rqueue.mk 2 0 (QueueData.mk "s" "l")] :: [])).queries =
      (run_groups (fun _ => [LockableResource.mk "pool-A"]) []
        [QueueGroup.mk "name" "pool-A" [Rqueue.mk 1 0 (QueueData.mk "s" "l")]]).queries ∧
     (run_groups (fun _ => [LockableResource.mk "pool-A"]) []
        ([QueueGroup.mk "name" "pool-A" [Rqueue.mk 1 0 (QueueData.mk "s" "l")]] ++
          QueueGroup.mk "region" "eu" [Rqueue.mk 2 0 (QueueData.mk "s" "l")] :: [])).dispatches =
      (run_groups (fun _ => [LockableResource.mk "pool-A"]) []
        [QueueGroup.mk "name" "pool-A" [Rqueue.mk 1 0 (QueueData.mk "s" "l")]]).dispatches) :=
  ⟨by decide, by decide,
   C6_config_error_stops_beat (fun _ => [LockableResource.mk "pool-A"]) []
     [QueueGroup.mk "name" "pool-A" [Rqueue.mk 1 0 (QueueData.mk "s" "l")]]
     (QueueGroup.mk "region" "eu" [Rqueue.mk 2 0 (QueueData.mk "s" "l")]) []
     (by decide) (by decide)⟩

/-- C7: For every group whose registry query returns an empty list of free
resources, the beat skips that group entirely — no entry is dequeued, no
dispatch thread is started, no error is raised — and processing continues
with the remaining groups exactly as it would without this group. -/
theorem C7_empty_resources_skips_group
    (freeRes : ResourceQuery → List LockableResource)
    (alive : List String) (g : QueueGroup) (qu : ResourceQuery)
    (rest : List QueueGroup)
    (hq : queryOf g = some qu) (hempty : freeRes qu = []) :
    processGroup freeRes alive g = ⟨[qu], [], none, alive⟩ ∧
    run_groups freeRes alive (g :: rest) =
      ⟨qu :: (run_groups freeRes alive rest).queries,
       (run_groups freeRes alive rest).dispatches,
       (run_groups freeRes alive rest).error,
       (run_groups freeRes alive rest).finalAlive⟩ := by
  have hstep : processGroup freeRes alive g = ⟨[qu], [], none, alive⟩ := by
    simp [processGroup, hq, hempty]
  exact ⟨hstep, by simp [run_groups, hstep]⟩

/-- Witness for C7: a "label" group whose query finds no free resource,
followed by a "name" group that still gets processed. -/
theorem C7_empty_resources_skips_group_witness :
    queryOf (QueueGroup.mk "label" "gpu" [Rqueue.mk 1 0 (QueueData.mk "s" "l")]) =
      some (ResourceQuery.byLabel "gpu") ∧
    ((fun _ => ([] : List LockableResource)) (ResourceQuery.byLabel "gpu") :
      List LockableResource) = [] ∧
    (processGroup (fun _ => ([] : List LockableResource)) []
        (QueueGroup.mk "label" "gpu" [Rqueue.mk 1 0 (QueueData.mk "s" "l")]) =
      ⟨[ResourceQuery.byLabel "gpu"], [], none, []⟩ ∧
     run_groups (fun _ => ([] : List LockableResource)) []
        (QueueGroup.mk "label" "gpu" [Rqueue.mk 1 0 (QueueData.mk "s" "l")] ::
          [QueueGroup.mk "name" "pool-A" [Rqueue.mk 2 0 (QueueData.mk "s" "l")]]) =
      ⟨ResourceQuery.byLabel "gpu" ::
         (run_groups (fun _ => ([] : List LockableResource)) []
           [QueueGroup.mk "name" "pool-A" [Rqueue.mk 2 0 (QueueData.mk "s" "l")]]).queries,
       (run_groups (fun _ => ([] : List LockableResource)) []
         [QueueGroup.mk "name" "pool-A" [Rqueue.mk 2 0 (QueueData.mk "s" "l")]]).dispatches,
       (run_groups (fun _ => ([] : List LockableResource)) []
         [QueueGroup.mk "name" "pool-A" [Rqueue.mk 2 0 (QueueData.mk "s" "l")]]).error,
       (run_groups (fun _ => ([] : List LockableResource)) []
         [QueueGroup.mk "name" "pool-A" [Rqueue.mk 2 0 (QueueData.mk "s" "l")]]).finalAlive⟩) :=
  ⟨by decide, rfl,
   C7_empty_resources_skips_group (fun _ => ([] : List LockableResource)) []
     (QueueGroup.mk "label" "gpu" [Rqueue.mk 1 0 (QueueData.mk "s" "l")])
     (ResourceQuery.byLabel "gpu")
     [QueueGroup.mk "name" "pool-A" [Rqueue.mk 2 0 (QueueData.mk "s" "l")]]
     (by decide) rfl⟩

/-- C9: At most one dispatch attempt is in flight per queue-entry id:
when an attempt for an entry id has been started (its deterministically
named thread is alive), a second issuance for a group headed by an entry
with the same id is a no-op — the uniqueness check on the thread name
derived from the entry id skips it — and the one attempt that did start
makes exactly one terminal status transition. -/
theorem C9_second_attempt_noop
    (f1 f2 : ResourceQuery → List LockableResource) (alive : List String)
    (g1 g2 : QueueGroup) (nq1 nq2 : Rqueue)
    (h1 : g1.queues.head? = some nq1) (h2 : g2.queues.head? = some nq2)
    (hid : nq2.id = nq1.id)
    (hstart : (processGroup f1 alive g1).dispatches ≠ []) :
    (processGroup f2 (processGroup f1 alive g1).newAlive g2).dispatches = [] ∧
    ∀ beats now bt lr r,
      ((queue_beat_check beats now bt lr nq1 r).filter isStatusCall).length = 1 := by
  obtain ⟨nq, tl, hqs, hnm, hna⟩ := processGroup_started f1 alive g1 hstart
  have hnq : nq = nq1 := by rw [hqs] at h1; simpa using h1
  refine ⟨?_, fun beats now bt lr r =>
    queue_beat_check_one_status_call beats now bt lr nq1 r⟩
  rw [hna]
  cases hq2 : queryOf g2 with
  | none => rw [processGroup_of_queryOf_none _ _ _ hq2]
  | some qu =>
    cases hr2 : f2 qu with
    | nil => simp [processGroup, hq2, hr2]
    | cons r rs =>
      cases hqs2 : g2.queues with
      | nil => simp [processGroup, hq2, hr2, hqs2]
      | cons m tl2 =>
        have hm : m = nq2 := by rw [hqs2] at h2; simpa using h2
        have hmid : thread_name_of m = thread_name_of nq := by
          unfold thread_name_of
          rw [hm, hid, ← hnq]
        simp [processGroup, hq2, hr2, hqs2, hmid]

/-- Witness for C9: the same single-entry group seen twice (the second beat
re-sees the entry while the first attempt's thread is alive); the second
issuance starts nothing. -/
theorem C9_second_attempt_noop_witness :
    (processGroup (fun _ => [LockableResource.mk "pool-A"]) []
        (QueueGroup.mk "name" "pool-A"
          [Rqueue.mk 1 0 (QueueData.mk "s" "l")])).dispatches ≠ [] ∧
    ((processGroup (fun _ => [LockableResource.mk "pool-A"])
        (processGroup (fun _ => [LockableResource.mk "pool-A"]) []
          (QueueGroup.mk "name" "pool-A"
            [Rqueue.mk 1 0 (QueueData.mk "s" "l")])).newAlive
        (QueueGroup.mk "name" "pool-A"
          [Rqueue.mk 1 0 (QueueData.mk "s" "l")])).dispatches = [] ∧
     ∀ beats now bt lr r,
       ((queue_beat_check beats now bt lr (Rqueue.mk 1 0 (QueueData.mk "s" "l"))
           r).filter isStatusCall).length = 1) :=
  ⟨by decide,
   C9_second_attempt_noop (fun _ => [LockableResource.mk "pool-A"])
     (fun _ => [LockableResource.mk "pool-A"]) []
     (QueueGroup.mk "name" "pool-A" [Rqueue.mk 1 0 (QueueData.mk "s" "l")])
     (QueueGroup.mk "name" "pool-A" [Rqueue.mk 1 0 (QueueData.mk "s" "l")])
     (Rqueue.mk 1 0 (QueueData.mk "s" "l")) (Rqueue.mk 1 0 (QueueData.mk "s" "l"))
     rfl rfl rfl (by decide)⟩

/-- C10: For every group in a beat, if a dispatch thread named after the
group's first entry is already alive, no new thread is started and the
first free resource is offered to no other entry of that group during that
beat: the dedup skip produces no dispatch at all for the group (and leaves
the alive set unchanged), rather than trying the group's next entry. -/
theorem C10_dedup_skip_discards_pairing
    (freeRes : ResourceQuery → List LockableResource)
    (alive : List String) (g : QueueGroup) (qu : ResourceQuery)
    (r : LockableResource) (rs : List LockableResource)
    (nq : Rqueue) (tl : List Rqueue)
    (hq : queryOf g = some qu) (hres : freeRes qu = r :: rs)
    (hqs : g.queues = nq :: tl) (hmem : thread_name_of nq ∈ alive) :
    processGroup freeRes alive g = ⟨[qu], [], none, alive⟩ := by
  simp [processGroup, hq, hres, hqs, hmem]

/-- Witness for C10: a two-member group with a free resource whose first
member's thread is already alive; the whole pairing is discarded. -/
theorem C10_dedup_skip_discards_pairing_witness :
    queryOf (QueueGroup.mk "name" "pool-A"
        [Rqueue.mk 1 0 (QueueData.mk "s" "l"),
         Rqueue.mk 2 0 (QueueData.mk "s" "l")]) =
      some (ResourceQuery.byName "pool-A") ∧
    thread_name_of (Rqueue.mk 1 0 (QueueData.mk "s" "l")) ∈ ["Thread-1"] ∧
    processGroup (fun _ => [LockableResource.mk "pool-A"]) ["Thread-1"]
        (QueueGroup.mk "name" "pool-A"
          [Rqueue.mk 1 0 (QueueData.mk "s" "l"),
           Rqueue.mk 2 0 (QueueData.mk "s" "l")]) =
      ⟨[ResourceQuery.byName "pool-A"], [], none, ["Thread-1"]⟩ :=
  ⟨by decide, by decide,
   C10_dedup_skip_discards_pairing (fun _ => [LockableResource.mk "pool-A"])
     ["Thread-1"]
     (QueueGroup.mk "name" "pool-A"
       [Rqueue.mk 1 0 (QueueData.mk "s" "l"),
        Rqueue.mk 2 0 (QueueData.mk "s" "l")])
     (ResourceQuery.byName "pool-A") (LockableResource.mk "pool-A") []
     (Rqueue.mk 1 0 (QueueData.mk "s" "l")) [Rqueue.mk 2 0 (QueueData.mk "s" "l")]
     (by decide) rfl rfl (by decide)⟩
